import Mathlib

/-!
Verification development for the `API_Vercel_Setup/main.py` image-generation
service.  The Python program is a single FastAPI application that, per
request, calls three external services: a generative-image model (Gemini),
a background-removal routine (rembg), and an image host (imgBB).

Shallow embedding conventions:
* A decoded PIL image is modelled as its dimensions plus an abstract
  content tag (`Image`).  Byte-level encode/decode round trips
  (`save`/`Image.open`) are modelled as the identity on this abstraction.
* The three external services are oracles collected in an `Env`:
  the imgBB responses are indexed by the sequence number of the POST.
* Each external call is recorded, in program order, in an append-only
  trace (`CallState.trace`), which makes the strictly sequential
  execution order of the Python code explicit.
* Python exceptions are modelled by `Except PyError`; an uncaught
  exception escaping the handler is exactly an `Except.error` result
  (FastAPI turns it into a generic 500 response with no JSON body).
-/

set_option autoImplicit false

namespace APIVercel

/-- A decoded in-memory image (PIL `Image`): its pixel dimensions and an
abstract tag standing for the pixel content. -/
structure Image where
  width : Nat
  height : Nat
  tag : Nat
deriving DecidableEq

/-- A scalar JSON value, as found in the `success` field of an imgBB response. -/
inductive JValue where
  | jnull
  | jbool (b : Bool)
  | jnum (n : Int)
  | jstr (s : String)
deriving DecidableEq

/-- Python truthiness of a scalar JSON value. -/
def JValue.truthy : JValue → Bool
  | .jnull => false
  | .jbool b => b
  | .jnum n => decide (n ≠ 0)
  | .jstr s => decide (s ≠ "")

/-- The nested `data` object of an imgBB JSON response; only the `url`
field is read by the program.  `none` models an absent key. -/
structure HostData where
  url : Option String
deriving DecidableEq

/-- The parsed JSON body of an imgBB upload response: an optional
`success` field and an optional nested `data` object. -/
structure HostResponse where
  success : Option JValue
  data : Option HostData
deriving DecidableEq

/-- Python truthiness of `dict.get("success")`: an absent key yields
`None`, which is falsy. -/
def truthyOpt : Option JValue → Bool
  | none => false
  | some v => v.truthy

/-- The Python exceptions this program can raise.  `valueError` carries the
response payload of the host (the Python code interpolates the parsed
`data` dict into the message); `attributeError` carries the missing attribute
name; `typeError` exists in the Python exception hierarchy and is included
so that statements can distinguish it from `attributeError`. -/
inductive PyError where
  | valueError (payload : HostResponse)
  | keyError (key : String)
  | attributeError (attr : String)
  | typeError (msg : String)
deriving DecidableEq

/-- Whether a Python exception is a `TypeError`. -/
def isTypeError : PyError → Bool
  | .typeError _ => true
  | _ => false

/-- Whether an outcome is an uncaught Python `TypeError`. -/
def raisedTypeError {α : Type} : Except PyError α → Bool
  | .error e => isTypeError e
  | .ok _ => false

/-- One part of a Gemini `generate_content` response.  `hasInlineAttr`
models `hasattr(part, "inline_data")`; `inline_data` is the decoded
inline image, `none` when the field is `None`. -/
structure Part where
  hasInlineAttr : Bool
  inline_data : Option Image
deriving DecidableEq

/-- A Gemini `generate_content` response: a list of parts. -/
structure GenResponse where
  parts : List Part
deriving DecidableEq

/-- One external call performed by the handler, in program order:
a Gemini generation request, a rembg background-removal call, or an
imgBB upload POST (with its sequence number within the request and the
image being uploaded). -/
inductive Event where
  | genCall (prompt : String) (input : Image)
  | rembgCall (input : Image)
  | upload (idx : Nat) (img : Image)
deriving DecidableEq

/-- Whether an event is a Gemini generation call. -/
def isGenEvent : Event → Bool
  | .genCall _ _ => true
  | _ => false

/-- Whether an event is an imgBB upload POST. -/
def isUploadEvent : Event → Bool
  | .upload _ _ => true
  | _ => false

/-- Per-request call state: how many imgBB POSTs have been issued so far
and the append-only trace of external calls. -/
structure CallState where
  uploadCount : Nat
  trace : List Event
deriving DecidableEq

/-- The three external services, as oracles.  `genResp` gives the Gemini
response for a prompt and input image; `rembgFn` gives the decoded result
of `remove`; `hostResp` gives the parsed JSON body of the n-th imgBB POST
of the request. -/
structure Env where
  genResp : String → Image → GenResponse
  rembgFn : Image → Image
  hostResp : Nat → HostResponse

/-- Process-level configuration: the two environment-variable secrets
(`GEMINI_KEY`, `IMGBB_KEY`), each possibly unset. -/
structure Config where
  gemini_key : Option String
  imgbb_key : Option String

/-- Interpretation of an imgBB response body, from `upload_to_imgbb`:
`if data.get("success"): return data["data"]["url"] else: raise
ValueError(f"imgBB upload failed: ...")`.  A missing `data` or `url` key
raises `KeyError`. -/
def uploadResult (resp : HostResponse) : Except PyError String :=
  if truthyOpt resp.success then
    match resp.data with
    | none => .error (.keyError "data")
    | some d =>
      match d.url with
      | none => .error (.keyError "url")
      | some u => .ok u
  else .error (.valueError resp)

/-- Python function `upload_to_imgbb`: encode the image and POST it to imgBB (recorded as
an `Event.upload` with the next sequence number), then interpret the
JSON response. -/
def upload_to_imgbb (env : Env) (pil_image : Image) (s : CallState) :
    Except PyError String × CallState :=
  (uploadResult (env.hostResp s.uploadCount),
   { uploadCount := s.uploadCount + 1,
     trace := s.trace ++ [Event.upload s.uploadCount pil_image] })

/-- Python function `remove_background`: the argument is the value produced by
`generate_image`, which may be `None`.  On `None`, the very first
statement `pil_image.save(...)` raises
`AttributeError: NoneType object has no attribute save`, before the
external `remove` call; otherwise the external routine runs and its
result is decoded. -/
def remove_background (env : Env) (pil_image : Option Image) (s : CallState) :
    Except PyError Image × CallState :=
  match pil_image with
  | none => (.error (.attributeError "save"), s)
  | some img =>
      (.ok (env.rembgFn img), { s with trace := s.trace ++ [Event.rembgCall img] })

/-- The `for part in response.parts` loop of `generate_image`: return the
decoded image of the first part with a non-`None` `inline_data`
attribute, else `None`. -/
def firstInlineImage : List Part → Option Image
  | [] => none
  | p :: rest =>
      if p.hasInlineAttr && p.inline_data.isSome then p.inline_data
      else firstInlineImage rest

/-- Python function `generate_image`: one `generate_content` call (recorded as a single
`Event.genCall`), then scan the response parts for the first inline
image. -/
def generate_image (env : Env) (prompt : String) (input_image : Image) (s : CallState) :
    Option Image × CallState :=
  (firstInlineImage (env.genResp prompt input_image).parts,
   { s with trace := s.trace ++ [Event.genCall prompt input_image] })

/-- Description of the generation caller taken from the spec, written from its
words: return the first part carrying non-null inline image data, or an
absence value if none is present. -/
def specFirstInline (parts : List Part) : Option Image :=
  match parts.find? (fun p => p.hasInlineAttr && p.inline_data.isSome) with
  | some p => p.inline_data
  | none => none

/-- Ceiling division on naturals, `math.ceil (a / b)` for positive `b`. -/
def ceilDiv (a b : Nat) : Nat := (a + b - 1) / b

/-- PIL `Image.thumbnail((400, 400))`, width branch (reached when the
aspect `400/400 = 1` of the bounding box is at least the image aspect `w/h`,
i.e. `h ≥ w`): the new width is `round_aspect(400 * w / h)`, choosing
between floor and ceiling the value minimising `abs (w/h - n/400)`
(the floor on ties, as the Python `min` keeps the first argument), then
clamping up to `1`.  The float arithmetic of PIL is modelled exactly by
cross-multiplied integer comparisons. -/
def round_aspect_x (w h : Nat) : Nat :=
  let a := 400 * w / h
  let b := ceilDiv (400 * w) h
  max (if 800 * w ≤ (a + b) * h then a else b) 1

/-- PIL `Image.thumbnail((400, 400))`, height branch (reached when
`w > h`): the new height is `round_aspect(400 * h / w)`, choosing between
floor and ceiling the value minimising `abs (w/h - 400/n)` (with key `0`
at `n = 0`, and the floor on ties), then clamping up to `1`. -/
def round_aspect_y (w h : Nat) : Nat :=
  let a := 400 * h / w
  let b := ceilDiv (400 * h) w
  max (if a = 0 then a
       else if 400 * h * (a + b) ≤ 2 * (a * b) * w then a else b) 1

/-- The dimensions produced by `preview_img.thumbnail((400, 400))` on an
image of size `w × h`: unchanged when the image already fits in the
400×400 box, otherwise proportionally scaled down with the rounding of
the `round_aspect` rounding of PIL. -/
def thumbnailDims (w h : Nat) : Nat × Nat :=
  if w ≤ 400 ∧ h ≤ 400 then (w, h)
  else if w ≤ h then (round_aspect_x w h, 400)
  else (400, round_aspect_y w h)

/-- The preview derivation: `img_no_bg.copy()` then
`preview_img.thumbnail((400, 400))`. -/
def thumbnailImg (img : Image) : Image :=
  { img with
    width := (thumbnailDims img.width img.height).1,
    height := (thumbnailDims img.width img.height).2 }

/-- The high-resolution derivation: `img_no_bg.copy()` then
`highres_img.resize((3000, 3600))` — the exact requested size,
whatever the input dimensions. -/
def resizeHighres (img : Image) : Image :=
  { img with width := 3000, height := 3600 }

/-- One record of the JSON response: `variation`, `preview_url`,
`highres_url`. -/
structure VariationRecord where
  variation : Nat
  preview_url : String
  highres_url : String
deriving DecidableEq

/-- The JSON body returned on success: `{"images": [...]}`. -/
structure ApiResponse where
  images : List VariationRecord
deriving DecidableEq

/-- The body of the `for i, img in enumerate([img1, img2], start=1)` loop
of `generate_image_api`, for one variation: background removal, preview
and high-resolution derivations, preview upload, high-resolution upload,
then the response record.  Any raised exception aborts the request. -/
def processVariation (env : Env) (i : Nat) (img : Option Image) (s : CallState) :
    Except PyError VariationRecord × CallState :=
  match remove_background env img s with
  | (.error e, s1) => (.error e, s1)
  | (.ok img_no_bg, s1) =>
    let preview_img := thumbnailImg img_no_bg
    let highres_img := resizeHighres img_no_bg
    match upload_to_imgbb env preview_img s1 with
    | (.error e, s2) => (.error e, s2)
    | (.ok preview_url, s2) =>
      match upload_to_imgbb env highres_img s2 with
      | (.error e, s3) => (.error e, s3)
      | (.ok highres_url, s3) =>
        (.ok ⟨i, preview_url, highres_url⟩, s3)

/-- Python function `generate_image_api`: decode the upload, run the generation caller
once per prompt, then process variation 1 and variation 2 in order and
assemble the response. -/
def generate_image_api (env : Env) (input_image : Image) (prompt1 prompt2 : String)
    (s : CallState) : Except PyError ApiResponse × CallState :=
  let (img1, s1) := generate_image env prompt1 input_image s
  let (img2, s2) := generate_image env prompt2 input_image s1
  match processVariation env 1 img1 s2 with
  | (.error e, s3) => (.error e, s3)
  | (.ok r1, s3) =>
    match processVariation env 2 img2 s3 with
    | (.error e, s4) => (.error e, s4)
    | (.ok r2, s4) => (.ok ⟨[r1, r2]⟩, s4)

/-- A full request run, from the initial call state. -/
def runApi (env : Env) (input_image : Image) (prompt1 prompt2 : String) :
    Except PyError ApiResponse × CallState :=
  generate_image_api env input_image prompt1 prompt2 ⟨0, []⟩

/-- The default value of the `prompt1` form field (the Python
triple-quoted literal). -/
def defaultPrompt1 : String :=
  "\n    Create a clean Pixar-style cartoon illustration of the pet in the uploaded photo.\nKeep the full body, original pose, markings, proportions, and aspect ratio.\nUse soft shading and vibrant but natural colors.\nRemove the entire background and output a fully transparent PNG with clean edges.\n    "

/-- The default value of the `prompt2` form field. -/
def defaultPrompt2 : String :=
  "\n    Transform the uploaded pet photo into a bright Pixar-inspired character.\nKeep all body parts visible, maintain the pose, markings, and original aspect ratio.\nUse glossy highlights and 3D depth while staying natural.\nReturn a transparent PNG with a perfect cut-out.\n    "

/-- The literal returned by `api_home`. -/
def welcomeMessage : String :=
  "Welcome to the Image Generation API. Use the /api/generate endpoint to create images."

/-- Handler for `GET /`: FastAPI returns the string with its default status 200,
whatever the process configuration holds. -/
def api_home (_cfg : Config) : Nat × String := (200, welcomeMessage)


/-- A concrete input image, used to instantiate the theorems below at
executable inputs. -/
def imgA : Image := ⟨5, 7, 1⟩

/-- An environment in which every external call succeeds: each Gemini
response carries one inline image, and every imgBB POST is answered with
success and a distinct URL. -/
def env0 : Env where
  genResp := fun _ _ => ⟨[⟨true, some imgA⟩]⟩
  rembgFn := fun img => img
  hostResp := fun n =>
    ⟨some (.jbool true), some ⟨some (String.append "https://i.ibb.co/x" (Nat.repr n))⟩⟩

/-- An environment in which the Gemini responses contain no parts at all,
so the generation caller finds no inline image. -/
def envNoImg : Env where
  genResp := fun _ _ => ⟨[]⟩
  rembgFn := fun img => img
  hostResp := fun _ => ⟨some (.jbool true), some ⟨some "https://i.ibb.co/x0"⟩⟩

/-- An environment in which generation succeeds but the very first imgBB
POST is answered with a non-success body. -/
def envFail0 : Env where
  genResp := fun _ _ => ⟨[⟨true, some imgA⟩]⟩
  rembgFn := fun img => img
  hostResp := fun _ => ⟨some (.jbool false), none⟩

/-- An environment in which generation succeeds, the first imgBB POST is
answered with success, and every later POST with a non-success body. -/
def envFail1 : Env where
  genResp := fun _ _ => ⟨[⟨true, some imgA⟩]⟩
  rembgFn := fun img => img
  hostResp := fun n =>
    if n = 0 then ⟨some (.jbool true), some ⟨some "https://i.ibb.co/x0"⟩⟩
    else ⟨some (.jbool false), none⟩

/-- An imgBB response body reporting success with a nested URL. -/
def respOkR : HostResponse := ⟨some (.jbool true), some ⟨some "https://i.ibb.co/a"⟩⟩

/-- An imgBB response body reporting success but lacking the nested
`url` key. -/
def respNoUrl : HostResponse := ⟨some (.jbool true), some ⟨none⟩⟩

/-!
Theorems.  Each claim of the specification is settled by one theorem
below; helper lemmas shared between them come first.
-/

/-- A non-success imgBB body makes the uploader raise `ValueError`
carrying the parsed response. -/
lemma uploadResult_fail (resp : HostResponse) (h : truthyOpt resp.success = false) :
    uploadResult resp = .error (.valueError resp) := by
  simp [uploadResult, h]

/-- The part-scanning loop of `generate_image` computes exactly the
first-inline-image function described by the spec. -/
lemma firstInline_eq_spec (parts : List Part) :
    firstInlineImage parts = specFirstInline parts := by
  induction parts with
  | nil => rfl
  | cons p rest ih =>
    by_cases hp : p.hasInlineAttr && p.inline_data.isSome
    · simp [firstInlineImage, specFirstInline, List.find?, hp]
    · simp [firstInlineImage, specFirstInline, List.find?, hp] at ih ⊢
      exact ih

/-- Normal form of a fully successful request: both generations return an
inline image and all four imgBB POSTs succeed.  The run returns the
two-record response and its trace is the exact eight-call sequence. -/
lemma runApi_ok (env : Env) (input i1 i2 : Image) (p1 p2 : String) (u0 u1 u2 u3 : String)
    (h1 : firstInlineImage (env.genResp p1 input).parts = some i1)
    (h2 : firstInlineImage (env.genResp p2 input).parts = some i2)
    (hu0 : uploadResult (env.hostResp 0) = .ok u0)
    (hu1 : uploadResult (env.hostResp 1) = .ok u1)
    (hu2 : uploadResult (env.hostResp 2) = .ok u2)
    (hu3 : uploadResult (env.hostResp 3) = .ok u3) :
    runApi env input p1 p2 =
      (.ok ⟨[⟨1, u0, u1⟩, ⟨2, u2, u3⟩]⟩,
       ⟨4, [Event.genCall p1 input, Event.genCall p2 input,
            Event.rembgCall i1,
            Event.upload 0 (thumbnailImg (env.rembgFn i1)),
            Event.upload 1 (resizeHighres (env.rembgFn i1)),
            Event.rembgCall i2,
            Event.upload 2 (thumbnailImg (env.rembgFn i2)),
            Event.upload 3 (resizeHighres (env.rembgFn i2))]⟩) := by
  simp [runApi, generate_image_api, generate_image, processVariation, remove_background,
        upload_to_imgbb, h1, h2, hu0, hu1, hu2, hu3]

/-- Claim C1: for a valid uploaded image and the default prompts, when
every external call succeeds (both generations return an inline image and
all four imgBB POSTs answer success with a non-empty URL), the returned
JSON body is an `images` list with exactly two entries, the first with
`variation = 1` and the second with `variation = 2`, each carrying the
non-empty preview and high-resolution URLs returned by the host. -/
theorem C1_two_variations (env : Env) (input i1 i2 : Image) (u0 u1 u2 u3 : String)
    (h1 : firstInlineImage (env.genResp defaultPrompt1 input).parts = some i1)
    (h2 : firstInlineImage (env.genResp defaultPrompt2 input).parts = some i2)
    (hu0 : uploadResult (env.hostResp 0) = .ok u0)
    (hu1 : uploadResult (env.hostResp 1) = .ok u1)
    (hu2 : uploadResult (env.hostResp 2) = .ok u2)
    (hu3 : uploadResult (env.hostResp 3) = .ok u3)
    (hn0 : u0 ≠ "") (hn1 : u1 ≠ "") (hn2 : u2 ≠ "") (hn3 : u3 ≠ "") :
    (runApi env input defaultPrompt1 defaultPrompt2).1 =
      .ok ⟨[⟨1, u0, u1⟩, ⟨2, u2, u3⟩]⟩ ∧
    u0 ≠ "" ∧ u1 ≠ "" ∧ u2 ≠ "" ∧ u3 ≠ "" := by
  rw [runApi_ok env input i1 i2 _ _ u0 u1 u2 u3 h1 h2 hu0 hu1 hu2 hu3]
  exact ⟨rfl, hn0, hn1, hn2, hn3⟩

/-- Witness for C1 at the all-success environment `env0`. -/
theorem C1_witness :
    (runApi env0 imgA defaultPrompt1 defaultPrompt2).1 =
      .ok ⟨[⟨1, "https://i.ibb.co/x0", "https://i.ibb.co/x1"⟩,
            ⟨2, "https://i.ibb.co/x2", "https://i.ibb.co/x3"⟩]⟩ ∧
    ("https://i.ibb.co/x0" : String) ≠ "" ∧ ("https://i.ibb.co/x1" : String) ≠ "" ∧
    ("https://i.ibb.co/x2" : String) ≠ "" ∧ ("https://i.ibb.co/x3" : String) ≠ "" :=
  C1_two_variations env0 imgA imgA imgA _ _ _ _ rfl rfl rfl rfl rfl rfl
    (by decide) (by decide) (by decide) (by decide)

/-- Claim C2 (amended): when the Gemini response for the first prompt has
no inline image part, the absence value reaches `remove_background`
unchecked and the uncaught exception raised there is an
`AttributeError` on the missing `save` attribute (not a `TypeError`);
the run performs no rembg call and no upload, so no URL — partial or
null — is ever produced; and whenever either prompt yields no inline
image the request never returns a JSON body, only a server error. -/
theorem C2_absence_aborts (env : Env) (input : Image) (p1 p2 : String) :
    (firstInlineImage (env.genResp p1 input).parts = none →
      runApi env input p1 p2 =
        (.error (.attributeError "save"),
         ⟨0, [Event.genCall p1 input, Event.genCall p2 input]⟩)) ∧
    ((firstInlineImage (env.genResp p1 input).parts = none ∨
      firstInlineImage (env.genResp p2 input).parts = none) →
      ∀ r : ApiResponse, (runApi env input p1 p2).1 ≠ .ok r) := by
  constructor
  · intro h1
    simp [runApi, generate_image_api, generate_image, processVariation, remove_background, h1]
  · intro hsome r hcon
    rcases ho1 : firstInlineImage (env.genResp p1 input).parts with _ | i1
    · simp [runApi, generate_image_api, generate_image, processVariation,
            remove_background, ho1] at hcon
    · have ho2 : firstInlineImage (env.genResp p2 input).parts = none := by
        rcases hsome with h | h
        · rw [ho1] at h; exact absurd h (by simp)
        · exact h
      rcases hr0 : uploadResult (env.hostResp 0) with e0 | u0 <;>
        rcases hr1 : uploadResult (env.hostResp 1) with e1 | u1 <;>
        simp [runApi, generate_image_api, generate_image, processVariation,
              remove_background, upload_to_imgbb, ho1, ho2, hr0, hr1] at hcon

/-- Counterexample to C2 as stated: in the concrete environment whose
generation responses carry no inline image, the request fails, but the
uncaught exception is an attribute error, not a type error. -/
theorem C2_counterexample :
    (runApi envNoImg imgA "a" "b").1 = .error (.attributeError "save") ∧
    raisedTypeError (runApi envNoImg imgA "a" "b").1 = false := by
  constructor <;> rfl

/-- Witness for C2 (amended) at the concrete environment `envNoImg`. -/
theorem C2_witness :
    runApi envNoImg imgA "a" "b" =
      (.error (.attributeError "save"),
       ⟨0, [Event.genCall "a" imgA, Event.genCall "b" imgA]⟩) :=
  (C2_absence_aborts envNoImg imgA "a" "b").1 rfl

/-- Claim C3: a host body that does not report success makes the uploader
raise a value error carrying the parsed response payload; a success body
with the nested URL makes it return that URL; and when the first upload
of a request meets a non-success body, the uncaught value error aborts
the whole request — the run ends in that very error, with no JSON body
(hence no URLs) returned. -/
theorem C3_upload_failure (env : Env) (input i1 : Image) (p1 p2 : String)
    (resp : HostResponse) (d : HostData) (u : String) :
    (truthyOpt resp.success = false → uploadResult resp = .error (.valueError resp)) ∧
    (truthyOpt resp.success = true → resp.data = some d → d.url = some u →
      uploadResult resp = .ok u) ∧
    (firstInlineImage (env.genResp p1 input).parts = some i1 →
      truthyOpt (env.hostResp 0).success = false →
      runApi env input p1 p2 =
        (.error (.valueError (env.hostResp 0)),
         ⟨1, [Event.genCall p1 input, Event.genCall p2 input, Event.rembgCall i1,
              Event.upload 0 (thumbnailImg (env.rembgFn i1))]⟩)) := by
  refine ⟨fun h => uploadResult_fail resp h, fun ht hd hu => ?_, fun h1 hf => ?_⟩
  · simp [uploadResult, ht, hd, hu]
  · simp [runApi, generate_image_api, generate_image, processVariation, remove_background,
          upload_to_imgbb, h1, uploadResult_fail _ hf]

/-- Witness for C3 at the concrete environment `envFail0`. -/
theorem C3_witness :
    uploadResult (envFail0.hostResp 0) = .error (.valueError (envFail0.hostResp 0)) ∧
    uploadResult respOkR = .ok "https://i.ibb.co/a" ∧
    runApi envFail0 imgA "a" "b" =
      (.error (.valueError (envFail0.hostResp 0)),
       ⟨1, [Event.genCall "a" imgA, Event.genCall "b" imgA, Event.rembgCall imgA,
            Event.upload 0 (thumbnailImg imgA)]⟩) :=
  ⟨(C3_upload_failure envFail0 imgA imgA "a" "b" (envFail0.hostResp 0)
      ⟨some "https://i.ibb.co/a"⟩ "https://i.ibb.co/a").1 rfl,
   (C3_upload_failure envFail0 imgA imgA "a" "b" respOkR
      ⟨some "https://i.ibb.co/a"⟩ "https://i.ibb.co/a").2.1 rfl rfl rfl,
   (C3_upload_failure envFail0 imgA imgA "a" "b" (envFail0.hostResp 0)
      ⟨some "https://i.ibb.co/a"⟩ "https://i.ibb.co/a").2.2 rfl rfl⟩

/-- Closed form of `ceilDiv` as floor division plus a remainder-driven
correction term. -/
lemma ceilDiv_eq_div_add (X h : Nat) (hh : 0 < h) :
    ceilDiv X h = X / h + (X % h + h - 1) / h := by
  have hdm := Nat.div_add_mod X h
  have he : X + h - 1 = h * (X / h) + (X % h + h - 1) := by omega
  rw [ceilDiv, he, Nat.mul_add_div hh]

/-- Core rounding estimate for the thumbnail computation: whichever of
the floor and the ceiling of `400 * w / h` the `round_aspect` key picks,
after clamping up to `1` the chosen dimension is at most `400`, at most
the original `w`, and its cross product with `h` is within `h` of
`400 * w` — one pixel of exact proportionality. -/
lemma choose_near (w h c : Nat) (hw : 0 < w) (hh : 400 < h) (hwh : w ≤ h)
    (hc : c = 400 * w / h ∨ c = ceilDiv (400 * w) h) :
    max c 1 ≤ 400 ∧ max c 1 ≤ w ∧ Nat.dist (max c 1 * h) (400 * w) < h := by
  have hh0 : 0 < h := by omega
  have hdm := Nat.div_add_mod (400 * w) h
  have hrlt : 400 * w % h < h := Nat.mod_lt _ hh0
  set a := 400 * w / h with ha
  set r := 400 * w % h with hr
  have hble : 400 * w ≤ 400 * h := by omega
  have hwle : 400 * w ≤ h * w := Nat.mul_le_mul_right w (by omega)
  have haw : a ≤ w := by
    calc a ≤ h * w / h := Nat.div_le_div_right hwle
    _ = w := Nat.mul_div_cancel_left w hh0
  have ha400 : a ≤ 400 := by
    have h1 : a ≤ h * 400 / h := by
      apply Nat.div_le_div_right; omega
    calc a ≤ h * 400 / h := h1
    _ = 400 := Nat.mul_div_cancel_left 400 hh0
  have hbval : ceilDiv (400 * w) h = if r = 0 then a else a + 1 := by
    rw [ceilDiv_eq_div_add _ _ hh0, ← ha, ← hr]
    rcases Nat.eq_zero_or_pos r with h0 | hpos
    · simp [h0, Nat.div_eq_of_lt (show h - 1 < h by omega)]
    · have hpos2 : r ≠ 0 := by omega
      simp only [hpos2, if_false]
      congr 1
      exact Nat.div_eq_of_lt_le (by omega) (by omega)
  have hcases : c = a ∨ (c = a + 1 ∧ 0 < r) := by
    rcases hc with hc | hc
    · exact Or.inl hc
    · rw [hbval] at hc
      rcases Nat.eq_zero_or_pos r with h0 | hpos
      · rw [if_pos h0] at hc; exact Or.inl hc
      · rw [if_neg (by omega)] at hc; exact Or.inr ⟨hc, hpos⟩
  rcases hcases with hc1 | ⟨hc1, hrpos⟩
  · rcases Nat.eq_zero_or_pos a with ha0 | hapos
    · have hm : max c 1 = 1 := by rw [hc1, ha0]; rfl
      rw [ha0] at hdm
      rw [hm]
      refine ⟨by omega, by omega, ?_⟩
      rw [Nat.dist]
      omega
    · have hm : max c 1 = a := by rw [hc1]; exact Nat.max_eq_left hapos
      rw [hm]
      refine ⟨ha400, haw, ?_⟩
      rw [Nat.dist, Nat.mul_comm a h]
      omega
  · have hm : max c 1 = a + 1 := by rw [hc1]; exact Nat.max_eq_left (Nat.le_add_left 1 a)
    have h400 : h * a < h * 400 := by omega
    have hlt400 : a < 400 := Nat.lt_of_mul_lt_mul_left h400
    have hww : h * a < h * w := by omega
    have hltw : a < w := Nat.lt_of_mul_lt_mul_left hww
    rw [hm]
    refine ⟨by omega, by omega, ?_⟩
    have hmul : (a + 1) * h = h * a + h := by ring
    rw [Nat.dist, hmul]
    omega

/-- Claim C4 (amended): for every background-removed image of positive
size `w × h`, the preview produced by `thumbnail((400, 400))` has width
and height at most 400, never exceeds the source dimensions (so is
never an upscale), is exactly the source whenever the source already
fits the 400×400 box, and preserves the aspect ratio up to the integer
rounding of one pixel: the two cross products of preview and source
dimensions differ by less than the larger source dimension. -/
theorem C4_preview_bounds (w h : Nat) (hw : 0 < w) (hh : 0 < h) :
    (thumbnailDims w h).1 ≤ 400 ∧ (thumbnailDims w h).2 ≤ 400 ∧
    (thumbnailDims w h).1 ≤ w ∧ (thumbnailDims w h).2 ≤ h ∧
    ((w ≤ 400 ∧ h ≤ 400) → thumbnailDims w h = (w, h)) ∧
    Nat.dist ((thumbnailDims w h).1 * h) ((thumbnailDims w h).2 * w) < max w h := by
  by_cases hfit : w ≤ 400 ∧ h ≤ 400
  · rw [thumbnailDims, if_pos hfit]
    refine ⟨hfit.1, hfit.2, Nat.le_refl w, Nat.le_refl h, fun _ => rfl, ?_⟩
    have hd : Nat.dist (w * h) (h * w) = 0 := by rw [Nat.mul_comm w h, Nat.dist_self]
    rw [hd]
    exact Nat.lt_of_lt_of_le hw (Nat.le_max_left w h)
  · by_cases hwh : w ≤ h
    · have hh4 : 400 < h := by omega
      rw [thumbnailDims, if_neg hfit, if_pos hwh]
      simp only [round_aspect_x]
      have hcc : (if 800 * w ≤ (400 * w / h + ceilDiv (400 * w) h) * h then 400 * w / h
                  else ceilDiv (400 * w) h) = 400 * w / h ∨
                 (if 800 * w ≤ (400 * w / h + ceilDiv (400 * w) h) * h then 400 * w / h
                  else ceilDiv (400 * w) h) = ceilDiv (400 * w) h := by
        split
        · exact Or.inl rfl
        · exact Or.inr rfl
      obtain ⟨b1, b2, b3⟩ := choose_near w h _ hw hh4 hwh hcc
      refine ⟨b1, Nat.le_refl 400, b2, by omega, fun hcon => absurd hcon hfit, ?_⟩
      rw [Nat.max_eq_right hwh]
      exact b3
    · have hw4 : 400 < w := by omega
      have hhw : h ≤ w := by omega
      rw [thumbnailDims, if_neg hfit, if_neg hwh]
      simp only [round_aspect_y]
      have hcc : (if 400 * h / w = 0 then 400 * h / w
                  else if 400 * h * (400 * h / w + ceilDiv (400 * h) w) ≤
                         2 * (400 * h / w * ceilDiv (400 * h) w) * w
                       then 400 * h / w else ceilDiv (400 * h) w) = 400 * h / w ∨
                 (if 400 * h / w = 0 then 400 * h / w
                  else if 400 * h * (400 * h / w + ceilDiv (400 * h) w) ≤
                         2 * (400 * h / w * ceilDiv (400 * h) w) * w
                       then 400 * h / w else ceilDiv (400 * h) w) = ceilDiv (400 * h) w := by
        split
        · exact Or.inl rfl
        · split
          · exact Or.inl rfl
          · exact Or.inr rfl
      obtain ⟨b1, b2, b3⟩ := choose_near h w _ hh hw4 hhw hcc
      refine ⟨Nat.le_refl 400, b1, by omega, b2, fun hcon => absurd hcon hfit, ?_⟩
      rw [Nat.max_eq_left hhw, Nat.dist_comm]
      exact b3

/-- Counterexample to C4 as stated: a 401×400 background-removed image
yields a 400×399 preview, whose aspect ratio 400:399 is not exactly the
source ratio 401:400 — exact aspect preservation fails. -/
theorem C4_counterexample :
    thumbnailDims 401 400 = (400, 399) ∧
    ¬ ((thumbnailDims 401 400).1 * 400 = (thumbnailDims 401 400).2 * 401) := by
  constructor <;> decide

/-- Witness for C4 (amended) at the concrete source size 800×600. -/
theorem C4_witness :
    (thumbnailDims 800 600).1 ≤ 400 ∧ (thumbnailDims 800 600).2 ≤ 400 ∧
    (thumbnailDims 800 600).1 ≤ 800 ∧ (thumbnailDims 800 600).2 ≤ 600 ∧
    ((800 ≤ 400 ∧ 600 ≤ 400) → thumbnailDims 800 600 = (800, 600)) ∧
    Nat.dist ((thumbnailDims 800 600).1 * 600) ((thumbnailDims 800 600).2 * 800) <
      max 800 600 :=
  C4_preview_bounds 800 600 (by decide) (by decide)

/-- Claim C5: in every run, whatever the environment, input and prompts,
every upload event with odd sequence number — the high-resolution upload
of a variation, as the uploads alternate preview, high-resolution — 
carries an image of exactly 3000×3600 pixels, whatever the dimensions of
the background-removed source. -/
theorem C5_highres_exact (env : Env) (input : Image) (p1 p2 : String) (n : Nat) (img : Image)
    (hmem : Event.upload n img ∈ (runApi env input p1 p2).2.trace)
    (hodd : n % 2 = 1) :
    img.width = 3000 ∧ img.height = 3600 := by
  rcases ho1 : firstInlineImage (env.genResp p1 input).parts with _ | i1
  · simp [runApi, generate_image_api, generate_image, processVariation,
          remove_background, ho1] at hmem
  · rcases hr0 : uploadResult (env.hostResp 0) with e0 | u0
    · simp [runApi, generate_image_api, generate_image, processVariation,
            remove_background, upload_to_imgbb, ho1, hr0] at hmem
      obtain ⟨hn, rfl⟩ := hmem
      omega
    · rcases hr1 : uploadResult (env.hostResp 1) with e1 | u1
      · simp [runApi, generate_image_api, generate_image, processVariation,
              remove_background, upload_to_imgbb, ho1, hr0, hr1] at hmem
        rcases hmem with ⟨hn, rfl⟩ | ⟨hn, rfl⟩
        · omega
        · simp [resizeHighres]
      · rcases ho2 : firstInlineImage (env.genResp p2 input).parts with _ | i2
        · simp [runApi, generate_image_api, generate_image, processVariation,
                remove_background, upload_to_imgbb, ho1, ho2, hr0, hr1] at hmem
          rcases hmem with ⟨hn, rfl⟩ | ⟨hn, rfl⟩
          · omega
          · simp [resizeHighres]
        · rcases hr2 : uploadResult (env.hostResp 2) with e2 | u2
          · simp [runApi, generate_image_api, generate_image, processVariation,
                  remove_background, upload_to_imgbb, ho1, ho2, hr0, hr1, hr2] at hmem
            rcases hmem with ⟨hn, rfl⟩ | ⟨hn, rfl⟩ | ⟨hn, rfl⟩
            · omega
            · simp [resizeHighres]
            · omega
          · rcases hr3 : uploadResult (env.hostResp 3) with e3 | u3 <;>
              simp [runApi, generate_image_api, generate_image, processVariation,
                    remove_background, upload_to_imgbb, ho1, ho2, hr0, hr1, hr2, hr3] at hmem <;>
              [rcases hmem with ⟨hn, rfl⟩ | ⟨hn, rfl⟩ | ⟨hn, rfl⟩ | ⟨hn, rfl⟩;
               rcases hmem with ⟨hn, rfl⟩ | ⟨hn, rfl⟩ | ⟨hn, rfl⟩ | ⟨hn, rfl⟩] <;>
              first
                | omega
                | simp [resizeHighres]

/-- Witness for C5: the second upload of the `env0` run is the
high-resolution variant, a 3000×3600 image. -/
theorem C5_witness :
    (Image.mk 3000 3600 1).width = 3000 ∧ (Image.mk 3000 3600 1).height = 3600 :=
  C5_highres_exact env0 imgA "a" "b" 1 (Image.mk 3000 3600 1) (by decide) rfl

/-- Claim C6: for every prompt and source image, the generation caller
issues exactly one Gemini call — the trace grows by exactly one
generation event, so there is no retry — and its returned value is the
first-inline-image function, which coincides with the selection the spec
describes (`specFirstInline`): the first part carrying non-null inline
image data, or an absence value when no part does. -/
theorem C6_generate_once (env : Env) (prompt : String) (input_image : Image)
    (s : CallState) (parts : List Part) :
    generate_image env prompt input_image s =
      (specFirstInline (env.genResp prompt input_image).parts,
       { s with trace := s.trace ++ [Event.genCall prompt input_image] }) ∧
    (generate_image env prompt input_image s).2.trace.countP (fun e => isGenEvent e) =
      s.trace.countP (fun e => isGenEvent e) + 1 ∧
    firstInlineImage parts = specFirstInline parts := by
  refine ⟨?_, ?_, firstInline_eq_spec parts⟩
  · rw [generate_image, firstInline_eq_spec]
  · simp [generate_image, List.countP_append, isGenEvent]

/-- Claim C7: in a fully successful request the external calls form
exactly this sequence — generation for prompt 1, generation for
prompt 2, then background removal, preview upload and high-resolution
upload for variation 1, then the same three calls for variation 2.  The
trace semantics is totally ordered, reflecting the synchronous
single-threaded handler, so no two calls overlap; and the response
records are assembled in variation order 1 then 2. -/
theorem C7_sequential_trace (env : Env) (input i1 i2 : Image) (p1 p2 : String)
    (u0 u1 u2 u3 : String)
    (h1 : firstInlineImage (env.genResp p1 input).parts = some i1)
    (h2 : firstInlineImage (env.genResp p2 input).parts = some i2)
    (hu0 : uploadResult (env.hostResp 0) = .ok u0)
    (hu1 : uploadResult (env.hostResp 1) = .ok u1)
    (hu2 : uploadResult (env.hostResp 2) = .ok u2)
    (hu3 : uploadResult (env.hostResp 3) = .ok u3) :
    (runApi env input p1 p2).2.trace =
      [Event.genCall p1 input, Event.genCall p2 input,
       Event.rembgCall i1,
       Event.upload 0 (thumbnailImg (env.rembgFn i1)),
       Event.upload 1 (resizeHighres (env.rembgFn i1)),
       Event.rembgCall i2,
       Event.upload 2 (thumbnailImg (env.rembgFn i2)),
       Event.upload 3 (resizeHighres (env.rembgFn i2))] ∧
    (runApi env input p1 p2).1 = .ok ⟨[⟨1, u0, u1⟩, ⟨2, u2, u3⟩]⟩ := by
  rw [runApi_ok env input i1 i2 p1 p2 u0 u1 u2 u3 h1 h2 hu0 hu1 hu2 hu3]
  exact ⟨rfl, rfl⟩

/-- Witness for C7 at the all-success environment `env0`. -/
theorem C7_witness :
    (runApi env0 imgA "a" "b").2.trace =
      [Event.genCall "a" imgA, Event.genCall "b" imgA,
       Event.rembgCall imgA,
       Event.upload 0 (thumbnailImg imgA), Event.upload 1 (resizeHighres imgA),
       Event.rembgCall imgA,
       Event.upload 2 (thumbnailImg imgA), Event.upload 3 (resizeHighres imgA)] ∧
    (runApi env0 imgA "a" "b").1 =
      .ok ⟨[⟨1, "https://i.ibb.co/x0", "https://i.ibb.co/x1"⟩,
            ⟨2, "https://i.ibb.co/x2", "https://i.ibb.co/x3"⟩]⟩ :=
  C7_sequential_trace env0 imgA imgA imgA "a" "b" _ _ _ _ rfl rfl rfl rfl rfl rfl

/-- Claim C8: `GET /` returns status 200 with the literal welcome string,
for every configuration state — including missing API-key environment
variables — and the string is not empty. -/
theorem C8_home_ok (cfg : Config) :
    api_home cfg = (200, welcomeMessage) ∧ welcomeMessage ≠ "" :=
  ⟨rfl, by decide⟩

/-- Claim C9: when the generations succeed, the first `k` imgBB uploads
succeed (`1 ≤ k ≤ 3`) and upload `k` is answered with a non-success
body, the request ends in the value error of that response — the caller
receives only an error, no URLs — while each of the `k` earlier uploads
was already performed: its upload event is in the final trace, and the
trace is append-only, so the external side effect is never undone.  The
request is not atomic with respect to external uploads. -/
theorem C9_uploads_not_rolled_back (env : Env) (input i1 i2 : Image) (p1 p2 : String)
    (k : Nat)
    (h1 : firstInlineImage (env.genResp p1 input).parts = some i1)
    (h2 : firstInlineImage (env.genResp p2 input).parts = some i2)
    (hk : 1 ≤ k) (hk3 : k ≤ 3)
    (hok : ∀ j, j < k → ∃ u, uploadResult (env.hostResp j) = .ok u)
    (hfail : truthyOpt (env.hostResp k).success = false) :
    (runApi env input p1 p2).1 = .error (.valueError (env.hostResp k)) ∧
    ∀ j, j < k → ∃ img, Event.upload j img ∈ (runApi env input p1 p2).2.trace := by
  have hf := uploadResult_fail _ hfail
  interval_cases k
  · obtain ⟨u0, hu0⟩ := hok 0 (by omega)
    constructor
    · simp [runApi, generate_image_api, generate_image, processVariation, remove_background,
            upload_to_imgbb, h1, hu0, hf]
    · intro j hj
      interval_cases j
      exact ⟨thumbnailImg (env.rembgFn i1), by
        simp [runApi, generate_image_api, generate_image, processVariation, remove_background,
              upload_to_imgbb, h1, hu0, hf]⟩
  · obtain ⟨u0, hu0⟩ := hok 0 (by omega)
    obtain ⟨u1, hu1⟩ := hok 1 (by omega)
    constructor
    · simp [runApi, generate_image_api, generate_image, processVariation, remove_background,
            upload_to_imgbb, h1, h2, hu0, hu1, hf]
    · intro j hj
      interval_cases j
      · exact ⟨thumbnailImg (env.rembgFn i1), by
          simp [runApi, generate_image_api, generate_image, processVariation, remove_background,
                upload_to_imgbb, h1, h2, hu0, hu1, hf]⟩
      · exact ⟨resizeHighres (env.rembgFn i1), by
          simp [runApi, generate_image_api, generate_image, processVariation, remove_background,
                upload_to_imgbb, h1, h2, hu0, hu1, hf]⟩
  · obtain ⟨u0, hu0⟩ := hok 0 (by omega)
    obtain ⟨u1, hu1⟩ := hok 1 (by omega)
    obtain ⟨u2, hu2⟩ := hok 2 (by omega)
    constructor
    · simp [runApi, generate_image_api, generate_image, processVariation, remove_background,
            upload_to_imgbb, h1, h2, hu0, hu1, hu2, hf]
    · intro j hj
      interval_cases j
      · exact ⟨thumbnailImg (env.rembgFn i1), by
          simp [runApi, generate_image_api, generate_image, processVariation, remove_background,
                upload_to_imgbb, h1, h2, hu0, hu1, hu2, hf]⟩
      · exact ⟨resizeHighres (env.rembgFn i1), by
          simp [runApi, generate_image_api, generate_image, processVariation, remove_background,
                upload_to_imgbb, h1, h2, hu0, hu1, hu2, hf]⟩
      · exact ⟨thumbnailImg (env.rembgFn i2), by
          simp [runApi, generate_image_api, generate_image, processVariation, remove_background,
                upload_to_imgbb, h1, h2, hu0, hu1, hu2, hf]⟩

/-- Witness for C9 at `envFail1`: the second upload fails, the first
remains performed. -/
theorem C9_witness :
    (runApi envFail1 imgA "a" "b").1 =
      .error (.valueError (envFail1.hostResp 1)) ∧
    ∀ j, j < 1 → ∃ img, Event.upload j img ∈ (runApi envFail1 imgA "a" "b").2.trace :=
  C9_uploads_not_rolled_back envFail1 imgA imgA imgA "a" "b" 1 rfl rfl (by decide) (by decide)
    (fun j hj => by interval_cases j; exact ⟨"https://i.ibb.co/x0", rfl⟩) rfl

/-- Claim C10: the uploader treats an absent `success` key, and any falsy
`success` value, as failure and raises a value error carrying the
response; a truthy `success` with the nested `data.url` present returns
that URL; a truthy `success` whose `data` or `url` key is missing raises
an unhandled key error rather than returning an absence value; and only
a truthy `success` ever yields a URL. -/
theorem C10_uploader_success_flag (resp : HostResponse) (d : HostData) (u : String) :
    (resp.success = none → uploadResult resp = .error (.valueError resp)) ∧
    (truthyOpt resp.success = false → uploadResult resp = .error (.valueError resp)) ∧
    (truthyOpt resp.success = true → resp.data = none →
      uploadResult resp = .error (.keyError "data")) ∧
    (truthyOpt resp.success = true → resp.data = some d → d.url = none →
      uploadResult resp = .error (.keyError "url")) ∧
    (truthyOpt resp.success = true → resp.data = some d → d.url = some u →
      uploadResult resp = .ok u) ∧
    (∀ v : String, uploadResult resp = .ok v → truthyOpt resp.success = true) := by
  refine ⟨fun h => ?_, fun h => uploadResult_fail resp h, fun ht hd => ?_,
          fun ht hd hu => ?_, fun ht hd hu => ?_, fun v hv => ?_⟩
  · exact uploadResult_fail resp (by simp [truthyOpt, h])
  · simp [uploadResult, ht, hd]
  · simp [uploadResult, ht, hd, hu]
  · simp [uploadResult, ht, hd, hu]
  · by_contra hcon
    rw [uploadResult_fail resp (by simpa using hcon)] at hv
    exact absurd hv (by simp)

/-- Witness for C10 at three concrete response bodies. -/
theorem C10_witness :
    uploadResult (envFail0.hostResp 0) = .error (.valueError (envFail0.hostResp 0)) ∧
    uploadResult respOkR = .ok "https://i.ibb.co/a" ∧
    uploadResult respNoUrl = .error (.keyError "url") :=
  ⟨(C10_uploader_success_flag (envFail0.hostResp 0) ⟨some "u"⟩ "u").2.1 rfl,
   (C10_uploader_success_flag respOkR ⟨some "https://i.ibb.co/a"⟩
      "https://i.ibb.co/a").2.2.2.2.1 rfl rfl rfl,
   (C10_uploader_success_flag respNoUrl ⟨none⟩ "u").2.2.2.1 rfl rfl rfl⟩

end APIVercel
